import Mathlib

/-!
Shallow embedding of the VSEPR molecular-geometry quiz (React/TypeScript).

Sources:
* `src/types.ts` — enums `HybridizationType`, `SlotType`, `OrbitalPositionType`
  and the `OrbitalSlot` / `MoleculeDef` records.
* `src/unnamed/part_000` (`constants.ts`) — `GEOMETRY_NAMES`, `MOLECULES`,
  `GEOMETRY_SLOTS`.
* `src/App.tsx` — the session controller and handlers
  (`handleHybridizationSelect`, `handleSlotClick`, `handleCheck`,
  `handleNext`, `handleReset`).  Per the design note §9 of the spec, `App.tsx`
  (the variant with the `hasSubmitted` lock) is the primary contract;
  `src/unnamed/part_001` is the looser duplicate variant.

React `useState` state is modelled as an explicit `AppState` record and the
handlers as pure `AppState → AppState` functions.  The asynchronous
AI-generated success text (external collaborator, spec §6) is passed in as a
`String` argument, since it never gates state transitions.
-/

namespace VSEPR

/-- `HybridizationType` from `src/types.ts` (SP = Linear, SP2 = Trigonal
Planar, SP3 = Tetrahedral, SP3D = Trigonal Bipyramidal, SP3D2 = Octahedral). -/
inductive HybridizationType where
  | SP
  | SP2
  | SP3
  | SP3D
  | SP3D2
  deriving DecidableEq, Repr

/-- `SlotType` from `src/types.ts`: the content of one orbital slot. -/
inductive SlotType where
  | EMPTY
  | BOND
  | LONE_PAIR
  deriving DecidableEq, Repr

/-- `OrbitalPositionType` from `src/types.ts`. -/
inductive OrbitalPositionType where
  | AXIAL
  | EQUATORIAL
  | GENERAL
  deriving DecidableEq, Repr

/-- `OrbitalSlot` from `src/types.ts`: numeric id, 2D projection angle
(degrees), pseudo-3D tilt, current content, and position kind. -/
structure OrbitalSlot where
  id : Nat
  angle : Int
  tilt : Rat
  type : SlotType
  positionType : OrbitalPositionType
  deriving DecidableEq, Repr

/-- The `geometryRules` optional record of `MoleculeDef` in `src/types.ts`. -/
structure GeometryRules where
  lonePairsMustBe : Option OrbitalPositionType
  deriving DecidableEq, Repr

/-- `MoleculeDef` from `src/types.ts`. -/
structure MoleculeDef where
  formula : String
  name : String
  centralAtom : String
  ligandAtom : String
  bondingPairs : Nat
  lonePairs : Nat
  stericNumber : Nat
  hybridization : HybridizationType
  description : String
  geometryRules : Option GeometryRules := none
  deriving DecidableEq, Repr

/-- `GEOMETRY_NAMES` from `constants.ts`. -/
def GEOMETRY_NAMES : HybridizationType → String
  | .SP => "Linear"
  | .SP2 => "Trigonal Planar"
  | .SP3 => "Tetrahedral"
  | .SP3D => "Trigonal Bipyramidal"
  | .SP3D2 => "Octahedral"

/-- Entry 0 of `MOLECULES` in `constants.ts`. -/
def beCl2 : MoleculeDef :=
  { formula := "BeCl₂", name := "Beryllium Chloride", centralAtom := "Be",
    ligandAtom := "Cl", bondingPairs := 2, lonePairs := 0, stericNumber := 2,
    hybridization := .SP,
    description := "Linear geometry. Beryllium has only 2 valence electrons to share." }

/-- Entry 1 of `MOLECULES` in `constants.ts`. -/
def bf3 : MoleculeDef :=
  { formula := "BF₃", name := "Boron Trifluoride", centralAtom := "B",
    ligandAtom := "F", bondingPairs := 3, lonePairs := 0, stericNumber := 3,
    hybridization := .SP2,
    description := "Trigonal planar. Boron is satisfied with 6 valence electrons here." }

/-- Entry 2 of `MOLECULES` in `constants.ts`. -/
def so2 : MoleculeDef :=
  { formula := "SO₂", name := "Sulfur Dioxide", centralAtom := "S",
    ligandAtom := "O", bondingPairs := 2, lonePairs := 1, stericNumber := 3,
    hybridization := .SP2,
    description := "Bent shape. One lone pair repels the bonds slightly." }

/-- Entry 3 of `MOLECULES` in `constants.ts`. -/
def ch4 : MoleculeDef :=
  { formula := "CH₄", name := "Methane", centralAtom := "C",
    ligandAtom := "H", bondingPairs := 4, lonePairs := 0, stericNumber := 4,
    hybridization := .SP3,
    description := "Classic tetrahedral geometry." }

/-- Entry 4 of `MOLECULES` in `constants.ts`. -/
def nh3 : MoleculeDef :=
  { formula := "NH₃", name := "Ammonia", centralAtom := "N",
    ligandAtom := "H", bondingPairs := 3, lonePairs := 1, stericNumber := 4,
    hybridization := .SP3,
    description := "Trigonal pyramidal. The lone pair compresses bond angles." }

/-- Entry 5 of `MOLECULES` in `constants.ts`. -/
def h2o : MoleculeDef :=
  { formula := "H₂O", name := "Water", centralAtom := "O",
    ligandAtom := "H", bondingPairs := 2, lonePairs := 2, stericNumber := 4,
    hybridization := .SP3,
    description := "Bent geometry due to two lone pairs." }

/-- Entry 6 of `MOLECULES` in `constants.ts`. -/
def pCl5 : MoleculeDef :=
  { formula := "PCl₅", name := "Phosphorus Pentachloride", centralAtom := "P",
    ligandAtom := "Cl", bondingPairs := 5, lonePairs := 0, stericNumber := 5,
    hybridization := .SP3D,
    description := "Trigonal bipyramidal. Expanded octet." }

/-- Entry 7 of `MOLECULES` in `constants.ts`: the only molecule carrying a
`geometryRules` placement rule. -/
def xeF2 : MoleculeDef :=
  { formula := "XeF₂", name := "Xenon Difluoride", centralAtom := "Xe",
    ligandAtom := "F", bondingPairs := 2, lonePairs := 3, stericNumber := 5,
    hybridization := .SP3D,
    description := "Linear. Lone pairs occupy equatorial positions to minimize repulsion.",
    geometryRules := some { lonePairsMustBe := some .EQUATORIAL } }

/-- Entry 8 of `MOLECULES` in `constants.ts`. -/
def sf6 : MoleculeDef :=
  { formula := "SF₆", name := "Sulfur Hexafluoride", centralAtom := "S",
    ligandAtom := "F", bondingPairs := 6, lonePairs := 0, stericNumber := 6,
    hybridization := .SP3D2,
    description := "Octahedral geometry. Very stable." }

/-- Entry 9 of `MOLECULES` in `constants.ts`. -/
def clO3 : MoleculeDef :=
  { formula := "ClO₃⁻", name := "Chlorate Ion", centralAtom := "Cl",
    ligandAtom := "O", bondingPairs := 3, lonePairs := 1, stericNumber := 4,
    hybridization := .SP3,
    description := "Trigonal pyramidal geometry." }

/-- `MOLECULES` from `constants.ts`, in source order. -/
def MOLECULES : List MoleculeDef :=
  [beCl2, bf3, so2, ch4, nh3, h2o, pCl5, xeF2, sf6, clO3]

/-- One entry of a `GEOMETRY_SLOTS` template in `constants.ts`:
`{ angle, tilt, type }`. -/
structure SlotTemplateEntry where
  angle : Int
  tilt : Rat
  type : OrbitalPositionType
  deriving DecidableEq, Repr

/-- `GEOMETRY_SLOTS` from `constants.ts`: the slot template per
hybridization. -/
def GEOMETRY_SLOTS : HybridizationType → List SlotTemplateEntry
  | .SP =>
      [⟨0, 0, .GENERAL⟩, ⟨180, 0, .GENERAL⟩]
  | .SP2 =>
      [⟨90, 0, .GENERAL⟩, ⟨210, 0, .GENERAL⟩, ⟨330, 0, .GENERAL⟩]
  | .SP3 =>
      [⟨90, 0, .GENERAL⟩, ⟨210, 0.5, .GENERAL⟩, ⟨330, 0.5, .GENERAL⟩,
       ⟨270, -0.8, .GENERAL⟩]
  | .SP3D =>
      [⟨90, 0, .AXIAL⟩, ⟨270, 0, .AXIAL⟩, ⟨0, 0.5, .EQUATORIAL⟩,
       ⟨120, 0.5, .EQUATORIAL⟩, ⟨240, 0.5, .EQUATORIAL⟩]
  | .SP3D2 =>
      [⟨90, 0, .AXIAL⟩, ⟨270, 0, .AXIAL⟩, ⟨45, 0.3, .EQUATORIAL⟩,
       ⟨135, 0.3, .EQUATORIAL⟩, ⟨225, 0.3, .EQUATORIAL⟩,
       ⟨315, 0.3, .EQUATORIAL⟩]

/-- Slot initialization inside `handleHybridizationSelect` (`App.tsx` lines
70–79): one `OrbitalSlot` per template entry, id = template index, content
`EMPTY`, position kind copied from the template. -/
def initSlots (hyb : HybridizationType) : List OrbitalSlot :=
  (GEOMETRY_SLOTS hyb).enum.map fun p =>
    { id := p.1, angle := p.2.angle, tilt := p.2.tilt, type := SlotType.EMPTY,
      positionType := p.2.type }

/-- The content cycle inside `handleSlotClick` (`App.tsx` lines 91–95):
EMPTY → BOND → LONE_PAIR → EMPTY. -/
def cycleType : SlotType → SlotType
  | .EMPTY => .BOND
  | .BOND => .LONE_PAIR
  | .LONE_PAIR => .EMPTY

/-- The slot-list update inside `handleSlotClick` (`App.tsx` lines 88–98):
map over the slots, return every slot whose id differs unchanged, advance
the content of the matching slot along the cycle. -/
def cycleSlot (slots : List OrbitalSlot) (id : Nat) : List OrbitalSlot :=
  slots.map fun slot =>
    if slot.id ≠ id then slot
    else { slot with type := cycleType slot.type }

/-- Count of `BOND` slots (`App.tsx` line 125). -/
def bondCount (slots : List OrbitalSlot) : Nat :=
  (slots.filter fun s => decide (s.type = SlotType.BOND)).length

/-- Count of `LONE_PAIR` slots (`App.tsx` line 126). -/
def lonePairCount (slots : List OrbitalSlot) : Nat :=
  (slots.filter fun s => decide (s.type = SlotType.LONE_PAIR)).length

/-- The structured verdict of the validation cascade (spec §4.3); in
`App.tsx` the branches are distinguished by distinct `failReason` texts. -/
inductive Verdict where
  | MissingSelection
  | WrongGeometry
  | WrongCounts
  | WrongPlacement
  | Correct
  deriving DecidableEq, Repr

/-- The validation cascade of `handleCheck` (`App.tsx` lines 105–143),
factored as a pure function of the molecule, the selected hybridization and
the slots: no selection → `MissingSelection` (lines 106–110); wrong
hybridization → `WrongGeometry` (lines 120–122); else wrong bond or
lone-pair count → `WrongCounts` (lines 125–131); else, if the molecule has a
`lonePairsMustBe` rule and some lone pair sits on a slot of another position
kind → `WrongPlacement` (lines 133–142); else `Correct`. -/
def evaluate (m : MoleculeDef) (sel : Option HybridizationType)
    (slots : List OrbitalSlot) : Verdict :=
  match sel with
  | none => .MissingSelection
  | some hyb =>
    if hyb ≠ m.hybridization then .WrongGeometry
    else if bondCount slots ≠ m.bondingPairs ∨ lonePairCount slots ≠ m.lonePairs then
      .WrongCounts
    else
      match Option.bind m.geometryRules GeometryRules.lonePairsMustBe with
      | some req =>
        if slots.any fun s => decide (s.type = SlotType.LONE_PAIR ∧ s.positionType ≠ req) then
          .WrongPlacement
        else .Correct
      | none => .Correct

/-- A feedback toast (`App.tsx` line 31): kind and message. -/
inductive Feedback where
  | success (msg : String)
  | error (msg : String)
  | info (msg : String)
  deriving DecidableEq, Repr

/-- The `useState` state of `App.tsx` (lines 27–35) that the core handlers
touch.  `currentIndex` is kept in range as the code maintains it (starts at
0, `handleNext` increments only while `< MOLECULES.length - 1`). -/
structure AppState where
  currentIndex : Fin MOLECULES.length
  selectedHybridization : Option HybridizationType
  currentSlots : List OrbitalSlot
  feedback : Option Feedback
  score : Nat
  hasSubmitted : Bool
  deriving DecidableEq, Repr

/-- `const molecule = MOLECULES[currentIndex]` (`App.tsx` line 37). -/
def molecule (s : AppState) : MoleculeDef :=
  MOLECULES.get s.currentIndex

/-- `handleHybridizationSelect` (`App.tsx` lines 64–81): no-op once
submitted; otherwise select, initialize slots from the template, clear
feedback. -/
def handleHybridizationSelect (hyb : HybridizationType) (s : AppState) : AppState :=
  if s.hasSubmitted then s
  else
    { s with selectedHybridization := some hyb,
             currentSlots := initSlots hyb,
             feedback := none }

/-- `handleSlotClick` (`App.tsx` lines 83–100): no-op when no hybridization
is selected or once submitted; otherwise cycle the clicked slot and clear
feedback. -/
def handleSlotClick (id : Nat) (s : AppState) : AppState :=
  if s.selectedHybridization.isNone || s.hasSubmitted then s
  else
    { s with currentSlots := cycleSlot s.currentSlots id,
             feedback := none }

/-- `handleCheck` (`App.tsx` lines 102–159).  With no hybridization
selected it only sets an error toast and returns (lines 106–110).
Otherwise it sets `hasSubmitted` before any validation (line 113), then
runs the cascade (`evaluate`); `Correct` adds 100 to the score and shows
the AI success text (passed in as `successMsg`, spec §6), any failure shows
the `Analysis Failed` message of that branch.  The `MissingSelection` case of the
inner match is unreachable (`evaluate` with `some hyb` never returns it). -/
def handleCheck (successMsg : String) (s : AppState) : AppState :=
  match s.selectedHybridization with
  | none => { s with feedback := some (.error "Select a geometry shape first.") }
  | some hyb =>
    let m := molecule s
    let locked := { s with hasSubmitted := true }
    match evaluate m (some hyb) s.currentSlots with
    | .Correct =>
        { locked with score := s.score + 100,
                      feedback := some (.success successMsg) }
    | .WrongGeometry =>
        { locked with feedback := some (.error
            ("Analysis Failed. Incorrect Geometry. The stable shape is "
              ++ GEOMETRY_NAMES m.hybridization ++ ". Proceed to next sample.")) }
    | .WrongCounts =>
        { locked with feedback := some (.error
            ("Analysis Failed. Incorrect orbital contents. Expected "
              ++ toString m.bondingPairs ++ " Bonds and "
              ++ toString m.lonePairs ++ " Lone Pairs. Proceed to next sample.")) }
    | .WrongPlacement =>
        { locked with feedback := some (.error
            ("Analysis Failed. Unstable arrangement! Lone pairs must be in "
              ++ "equatorial positions to minimize repulsion. Proceed to next sample.")) }
    | .MissingSelection => locked

/-- The submit control as rendered (`App.tsx` lines 371–389): the Verify
button exists only while `hasSubmitted` is false, so a submission
dispatches `handleCheck` only before the lock. -/
def submit (successMsg : String) (s : AppState) : AppState :=
  if s.hasSubmitted then s else handleCheck successMsg s

/-- `handleNext` (`App.tsx` lines 169–176) together with the `useEffect`
reset on index change (lines 41–47): before the last molecule it advances
the index and resets the attempt state; on the last molecule it leaves the
index unchanged and shows the completion toast. -/
def handleNext (s : AppState) : AppState :=
  if h : s.currentIndex.val < MOLECULES.length - 1 then
    { s with currentIndex := ⟨s.currentIndex.val + 1, by omega⟩,
             selectedHybridization := none,
             currentSlots := [],
             feedback := none,
             hasSubmitted := false }
  else
    { s with feedback := some (.info "All samples analyzed. Refresh to restart protocol.") }

/-- `handleReset` (`App.tsx` lines 178–184): no-op once submitted,
otherwise clears the selection, slots and feedback. -/
def handleReset (s : AppState) : AppState :=
  if s.hasSubmitted then s
  else
    { s with selectedHybridization := none,
             currentSlots := [],
             feedback := none }

/-- The XeF₂ submission with both axial slots holding bonds and all three
equatorial slots holding lone pairs (the unique fully correct layout on the
trigonal-bipyramidal template). -/
def xeF2CorrectSlots : List OrbitalSlot :=
  (initSlots HybridizationType.SP3D).map fun s =>
    { s with type :=
        if s.positionType = OrbitalPositionType.AXIAL then SlotType.BOND
        else SlotType.LONE_PAIR }

/-- A XeF₂ submission with correct counts (2 bonds, 3 lone pairs) but a lone
pair on axial slot 0. -/
def xeF2AxialLPSlots : List OrbitalSlot :=
  (initSlots HybridizationType.SP3D).map fun s =>
    { s with type :=
        match s.id with
        | 0 => SlotType.LONE_PAIR
        | 1 => SlotType.BOND
        | 2 => SlotType.BOND
        | _ => SlotType.LONE_PAIR }

/-- A pre-submission state on the first molecule (BeCl₂) with Linear
selected and both slots cycled once to BOND. -/
def submitReadyState : AppState :=
  { currentIndex := ⟨0, by decide⟩,
    selectedHybridization := some HybridizationType.SP,
    currentSlots := cycleSlot (cycleSlot (initSlots HybridizationType.SP) 0) 1,
    feedback := none, score := 0, hasSubmitted := false }

/-- A state whose attempt lock is engaged. -/
def lockedState : AppState :=
  { currentIndex := ⟨0, by decide⟩,
    selectedHybridization := some HybridizationType.SP,
    currentSlots := initSlots HybridizationType.SP,
    feedback := none, score := 100, hasSubmitted := true }

/-- A fresh state on the first molecule with nothing selected yet. -/
def freshState : AppState :=
  { currentIndex := ⟨0, by decide⟩,
    selectedHybridization := none,
    currentSlots := [],
    feedback := none, score := 0, hasSubmitted := false }

/-- The completion toast text of `handleNext` (`App.tsx` line 174). -/
def completionMessage : String :=
  "All samples analyzed. Refresh to restart protocol."

/-- A state sitting on the last catalog molecule after its submission. -/
def lastMoleculeState : AppState :=
  { currentIndex := ⟨9, by decide⟩,
    selectedHybridization := some HybridizationType.SP3,
    currentSlots := initSlots HybridizationType.SP3,
    feedback := none, score := 0, hasSubmitted := true }

/-- C3 counterexample: the claim fails on the code — not every position in
the Octahedral (SP3D2) slot template has kind General; its template opens
with two Axial positions. -/
theorem octahedral_template_not_all_general :
    ((GEOMETRY_SLOTS HybridizationType.SP3D2).all
      fun e => e.type == OrbitalPositionType.GENERAL) = false := by
  decide

/-- C3 (amended): every position in the Linear, TrigonalPlanar and
Tetrahedral templates has kind General; Axial and Equatorial kinds occur in
both the TrigonalBipyramidal and the Octahedral templates — each of those
two lists two Axial positions followed by only Equatorial positions. -/
theorem template_position_kinds :
    (GEOMETRY_SLOTS HybridizationType.SP).map SlotTemplateEntry.type =
      [.GENERAL, .GENERAL] ∧
    (GEOMETRY_SLOTS HybridizationType.SP2).map SlotTemplateEntry.type =
      [.GENERAL, .GENERAL, .GENERAL] ∧
    (GEOMETRY_SLOTS HybridizationType.SP3).map SlotTemplateEntry.type =
      [.GENERAL, .GENERAL, .GENERAL, .GENERAL] ∧
    (GEOMETRY_SLOTS HybridizationType.SP3D).map SlotTemplateEntry.type =
      [.AXIAL, .AXIAL, .EQUATORIAL, .EQUATORIAL, .EQUATORIAL] ∧
    (GEOMETRY_SLOTS HybridizationType.SP3D2).map SlotTemplateEntry.type =
      [.AXIAL, .AXIAL, .EQUATORIAL, .EQUATORIAL, .EQUATORIAL, .EQUATORIAL] := by
  decide

/-- C7: the static catalog is well-formed — each slot template has length
equal to the canonical steric number of its class (Linear=2,
TrigonalPlanar=3, Tetrahedral=4, TrigonalBipyramidal=5, Octahedral=6), and
every molecule satisfies bondingPairs + lonePairs = stericNumber = length
of the template of its hybridization class. -/
theorem catalog_well_formed :
    (GEOMETRY_SLOTS HybridizationType.SP).length = 2 ∧
    (GEOMETRY_SLOTS HybridizationType.SP2).length = 3 ∧
    (GEOMETRY_SLOTS HybridizationType.SP3).length = 4 ∧
    (GEOMETRY_SLOTS HybridizationType.SP3D).length = 5 ∧
    (GEOMETRY_SLOTS HybridizationType.SP3D2).length = 6 ∧
    (MOLECULES.all fun m =>
      m.bondingPairs + m.lonePairs == m.stericNumber &&
      m.stericNumber == (GEOMETRY_SLOTS m.hybridization).length) = true := by
  decide

/-- C4: one `cycleSlot` call advances exactly the addressed slot along the
fixed content cycle (Empty→Bond, Bond→LonePair, LonePair→Empty) and leaves
every other slot unchanged; three `cycleSlot` calls on the same id restore
the original slot list. -/
theorem cycleSlot_cycle_closure (slots : List OrbitalSlot) (id i : Nat) :
    (cycleSlot slots id)[i]? = (slots[i]?).map (fun slot =>
      if slot.id = id then { slot with type := cycleType slot.type } else slot) ∧
    cycleType SlotType.EMPTY = SlotType.BOND ∧
    cycleType SlotType.BOND = SlotType.LONE_PAIR ∧
    cycleType SlotType.LONE_PAIR = SlotType.EMPTY ∧
    cycleSlot (cycleSlot (cycleSlot slots id) id) id = slots := by
  refine ⟨?_, rfl, rfl, rfl, ?_⟩
  · simp only [cycleSlot, List.getElem?_map]
    cases slots[i]? with
    | none => rfl
    | some slot =>
      by_cases h : slot.id = id <;> simp [h]
  · induction slots with
    | nil => rfl
    | cons hd tl ih =>
      obtain ⟨sid, sangle, stilt, stype, spos⟩ := hd
      simp only [cycleSlot, List.map_cons, List.cons.injEq] at ih ⊢
      refine ⟨?_, ih⟩
      by_cases h : sid = id
      · subst h
        cases stype <;> simp [cycleType]
      · simp [h]

/-- C10: `cycleSlot` is frame-preserving — the list length and, at every
index, the id, angle, tilt and positionType fields are identical before and
after the call; and when no slot in the list carries the addressed id the
list is returned completely unchanged. -/
theorem cycleSlot_frame (slots : List OrbitalSlot) (id i : Nat) :
    (cycleSlot slots id).length = slots.length ∧
    ((cycleSlot slots id)[i]?).map OrbitalSlot.id = (slots[i]?).map OrbitalSlot.id ∧
    ((cycleSlot slots id)[i]?).map OrbitalSlot.angle = (slots[i]?).map OrbitalSlot.angle ∧
    ((cycleSlot slots id)[i]?).map OrbitalSlot.tilt = (slots[i]?).map OrbitalSlot.tilt ∧
    ((cycleSlot slots id)[i]?).map OrbitalSlot.positionType =
      (slots[i]?).map OrbitalSlot.positionType ∧
    ((∀ s ∈ slots, s.id ≠ id) → cycleSlot slots id = slots) := by
  refine ⟨by simp [cycleSlot], ?_, ?_, ?_, ?_, ?_⟩
  · simp only [cycleSlot, List.getElem?_map]
    cases slots[i]? with
    | none => rfl
    | some slot => by_cases h : slot.id = id <;> simp [h]
  · simp only [cycleSlot, List.getElem?_map]
    cases slots[i]? with
    | none => rfl
    | some slot => by_cases h : slot.id = id <;> simp [h]
  · simp only [cycleSlot, List.getElem?_map]
    cases slots[i]? with
    | none => rfl
    | some slot => by_cases h : slot.id = id <;> simp [h]
  · simp only [cycleSlot, List.getElem?_map]
    cases slots[i]? with
    | none => rfl
    | some slot => by_cases h : slot.id = id <;> simp [h]
  · intro hall
    induction slots with
    | nil => rfl
    | cons hd tl ih =>
      simp only [cycleSlot, List.map_cons, List.cons.injEq] at ih ⊢
      exact ⟨by simp [hall hd (by simp)],
             ih fun s hs => hall s (List.mem_cons_of_mem hd hs)⟩

/-- C10 witness: calling `cycleSlot` with an id absent from the list (id 5
on the two-slot Linear template) leaves the list completely unchanged. -/
theorem cycleSlot_frame_witness :
    cycleSlot (initSlots HybridizationType.SP) 5 = initSlots HybridizationType.SP :=
  (cycleSlot_frame (initSlots HybridizationType.SP) 5 0).2.2.2.2.2 (by decide)

/-- C2: the validation cascade checks in the fixed order geometry → counts
→ placement and short-circuits at the first failure — a wrong hybridization
yields `WrongGeometry` whatever the counts; with the right geometry, wrong
bond or lone-pair counts yield `WrongCounts`; with geometry and counts
right, a violated placement rule yields `WrongPlacement`. -/
theorem evaluate_short_circuit_order (m : MoleculeDef) (hyb : HybridizationType)
    (slots : List OrbitalSlot) :
    (hyb ≠ m.hybridization → evaluate m (some hyb) slots = Verdict.WrongGeometry) ∧
    (hyb = m.hybridization →
      (bondCount slots ≠ m.bondingPairs ∨ lonePairCount slots ≠ m.lonePairs) →
      evaluate m (some hyb) slots = Verdict.WrongCounts) ∧
    (∀ req, hyb = m.hybridization →
      bondCount slots = m.bondingPairs → lonePairCount slots = m.lonePairs →
      Option.bind m.geometryRules GeometryRules.lonePairsMustBe = some req →
      (slots.any fun s =>
        decide (s.type = SlotType.LONE_PAIR ∧ s.positionType ≠ req)) = true →
      evaluate m (some hyb) slots = Verdict.WrongPlacement) := by
  refine ⟨fun h => ?_, fun h1 h2 => ?_, fun req h1 h2 h3 h4 h5 => ?_⟩
  · simp only [evaluate]
    rw [if_pos h]
  · simp only [evaluate]
    rw [if_neg (by simp [h1]), if_pos h2]
  · simp only [evaluate]
    rw [if_neg (by simp [h1]), if_neg (by simp [h2, h3]), h4]
    exact if_pos h5

/-- C2 witness: concrete instances of all three branches — BeCl₂ with
TrigonalPlanar selected and empty slots (wrong geometry and wrong counts)
yields `WrongGeometry`; BeCl₂ with Linear selected and empty slots yields
`WrongCounts`; XeF₂ with correct counts but an axially placed lone pair
yields `WrongPlacement`. -/
theorem evaluate_short_circuit_order_witness :
    evaluate beCl2 (some HybridizationType.SP2) [] = Verdict.WrongGeometry ∧
    evaluate beCl2 (some HybridizationType.SP) [] = Verdict.WrongCounts ∧
    evaluate xeF2 (some HybridizationType.SP3D) xeF2AxialLPSlots =
      Verdict.WrongPlacement :=
  ⟨(evaluate_short_circuit_order beCl2 HybridizationType.SP2 []).1 (by decide),
   (evaluate_short_circuit_order beCl2 HybridizationType.SP []).2.1 (by decide)
     (by decide),
   (evaluate_short_circuit_order xeF2 HybridizationType.SP3D xeF2AxialLPSlots).2.2
     OrbitalPositionType.EQUATORIAL (by decide) (by decide) (by decide) (by decide)
     (by decide)⟩

/-- C5: for XeF₂ (TrigonalBipyramidal, 2 bonding pairs, 3 lone pairs, rule:
lone pairs must be Equatorial), any submission selecting
TrigonalBipyramidal with exactly 2 bonds and 3 lone pairs in which some
lone pair sits on an Axial-kind slot evaluates to `WrongPlacement`, and the
submission with all three lone pairs on Equatorial-kind slots and both
bonds on Axial-kind slots evaluates to `Correct`. -/
theorem xeF2_placement_verdicts (slots : List OrbitalSlot) :
    (bondCount slots = 2 → lonePairCount slots = 3 →
      (∃ s ∈ slots, s.type = SlotType.LONE_PAIR ∧
        s.positionType = OrbitalPositionType.AXIAL) →
      evaluate xeF2 (some HybridizationType.SP3D) slots = Verdict.WrongPlacement) ∧
    evaluate xeF2 (some HybridizationType.SP3D) xeF2CorrectSlots = Verdict.Correct := by
  refine ⟨fun hb hl hex => ?_, by decide⟩
  obtain ⟨s, hs, hty, hpos⟩ := hex
  simp only [evaluate]
  rw [if_neg (by decide), if_neg (by simp [hb, hl, xeF2])]
  have hrule : Option.bind xeF2.geometryRules GeometryRules.lonePairsMustBe =
      some OrbitalPositionType.EQUATORIAL := rfl
  rw [hrule]
  exact if_pos (List.any_eq_true.mpr ⟨s, hs, by simp [hty, hpos]⟩)

/-- C5 witness: the concrete XeF₂ submission with a lone pair on axial slot
0 (counts correct: 2 bonds, 3 lone pairs) evaluates to `WrongPlacement`. -/
theorem xeF2_placement_verdicts_witness :
    evaluate xeF2 (some HybridizationType.SP3D) xeF2AxialLPSlots =
      Verdict.WrongPlacement :=
  (xeF2_placement_verdicts xeF2AxialLPSlots).1 (by decide) (by decide)
    (by decide)

/-- C1: submitting with some hybridization selected engages the attempt
lock whatever the verdict; a `Correct` verdict adds exactly 100 to the
score and any other verdict adds 0; and once submitted, a further submission
is a no-op for the same molecule instance (the Verify control is gone once
`hasSubmitted` holds), so no second scoring submission is possible. -/
theorem submit_one_chance_scoring (msg : String) (s : AppState)
    (hyb : HybridizationType) (hsel : s.selectedHybridization = some hyb)
    (hsub : s.hasSubmitted = false) :
    (submit msg s).hasSubmitted = true ∧
    (submit msg s).score = s.score +
      (if evaluate (molecule s) (some hyb) s.currentSlots = Verdict.Correct
        then 100 else 0) ∧
    ∀ msg2, submit msg2 (submit msg s) = submit msg s := by
  have hdispatch : submit msg s = handleCheck msg s := by
    simp [submit, hsub]
  have hcheck :
      (handleCheck msg s).hasSubmitted = true ∧
      (handleCheck msg s).score = s.score +
        (if evaluate (molecule s) (some hyb) s.currentSlots = Verdict.Correct
          then 100 else 0) := by
    simp only [handleCheck, hsel]
    cases hv : evaluate (molecule s) (some hyb) s.currentSlots <;>
      simp [hv]
  refine ⟨hdispatch ▸ hcheck.1, hdispatch ▸ hcheck.2, fun msg2 => ?_⟩
  rw [hdispatch, submit, if_pos (hdispatch ▸ hcheck.1)]

/-- C1 witness: on BeCl₂ with Linear selected and both slots set to Bond,
submitting engages the lock, awards 100, and a repeated submission is a
no-op. -/
theorem submit_one_chance_scoring_witness :
    (submit "ok" submitReadyState).hasSubmitted = true ∧
    (submit "ok" submitReadyState).score = submitReadyState.score +
      (if evaluate (molecule submitReadyState) (some HybridizationType.SP)
          submitReadyState.currentSlots = Verdict.Correct then 100 else 0) ∧
    submit "again" (submit "ok" submitReadyState) = submit "ok" submitReadyState :=
  have h := submit_one_chance_scoring "ok" submitReadyState HybridizationType.SP
    (by decide) (by decide)
  ⟨h.1, h.2.1, h.2.2 "again"⟩

/-- C6: once the attempt is locked (`hasSubmitted`), every `cycleSlot`
click and every hybridization reselection is a no-op — the whole state,
including the selected hybridization and all slot contents, is unchanged —
while the advance action, when a next molecule exists, releases the lock
for the next molecule. -/
theorem locked_attempt_no_mutation (s : AppState) (h : s.hasSubmitted = true) :
    (∀ id, handleSlotClick id s = s) ∧
    (∀ hyb, handleHybridizationSelect hyb s = s) ∧
    (s.currentIndex.val < MOLECULES.length - 1 →
      (handleNext s).hasSubmitted = false ∧
      (handleNext s).currentIndex.val = s.currentIndex.val + 1) := by
  refine ⟨fun id => ?_, fun hyb => ?_, fun hlt => ?_⟩
  · simp [handleSlotClick, h]
  · simp [handleHybridizationSelect, h]
  · simp only [handleNext]
    rw [dif_pos hlt]
    exact ⟨rfl, rfl⟩

/-- C6 witness: on a locked state, a slot click and a hybridization
reselection leave the state unchanged, and advancing releases the lock. -/
theorem locked_attempt_no_mutation_witness :
    handleSlotClick 0 lockedState = lockedState ∧
    handleHybridizationSelect HybridizationType.SP3 lockedState = lockedState ∧
    (handleNext lockedState).hasSubmitted = false :=
  have h := locked_attempt_no_mutation lockedState rfl
  ⟨h.1 0, h.2.1 HybridizationType.SP3, (h.2.2 (by decide)).1⟩

/-- C8: submitting with no hybridization selected yields the
`MissingSelection` outcome as an ordinary returned value (`handleCheck` is
a total function, never an exception), sets only the error toast, does not
engage the attempt lock, and leaves score and slots unchanged — so the
learner can still select a hybridization and submit again. -/
theorem missing_selection_no_lock (msg : String) (s : AppState)
    (h : s.selectedHybridization = none) :
    evaluate (molecule s) s.selectedHybridization s.currentSlots =
      Verdict.MissingSelection ∧
    handleCheck msg s =
      { s with feedback := some (Feedback.error "Select a geometry shape first.") } ∧
    (handleCheck msg s).hasSubmitted = s.hasSubmitted ∧
    (handleCheck msg s).score = s.score ∧
    (handleCheck msg s).currentSlots = s.currentSlots ∧
    (handleCheck msg s).currentIndex = s.currentIndex := by
  have he : handleCheck msg s =
      { s with feedback := some (Feedback.error "Select a geometry shape first.") } := by
    simp only [handleCheck, h]
  exact ⟨by rw [h]; rfl, he, by rw [he], by rw [he], by rw [he], by rw [he]⟩

/-- C8 witness: on the fresh initial state with nothing selected,
submitting leaves the lock disengaged and score and slots unchanged. -/
theorem missing_selection_no_lock_witness :
    evaluate (molecule freshState) freshState.selectedHybridization
      freshState.currentSlots = Verdict.MissingSelection ∧
    (handleCheck "x" freshState).hasSubmitted = false ∧
    (handleCheck "x" freshState).score = 0 ∧
    (handleCheck "x" freshState).currentSlots = [] :=
  have h := missing_selection_no_lock "x" freshState (by decide)
  ⟨h.1, h.2.2.1, h.2.2.2.1, h.2.2.2.2.1⟩

/-- C9: on the last catalog molecule the advance action leaves the molecule
index unchanged and shows the completion message (the `Complete` state of
the session), and repeating the advance action from there leaves the state
completely unchanged — advance past the end is idempotent. -/
theorem advance_past_last_idempotent (s : AppState)
    (h : s.currentIndex.val = MOLECULES.length - 1) :
    (handleNext s).currentIndex = s.currentIndex ∧
    (handleNext s).feedback = some (Feedback.info completionMessage) ∧
    handleNext (handleNext s) = handleNext s := by
  have hlt : ¬ s.currentIndex.val < MOLECULES.length - 1 := by omega
  have h1 : handleNext s = { s with feedback := some (Feedback.info completionMessage) } := by
    simp only [handleNext]
    rw [dif_neg hlt]
    rfl
  refine ⟨by rw [h1], by rw [h1], ?_⟩
  conv_lhs => rw [h1]
  rw [h1]
  simp only [handleNext]
  rw [dif_neg hlt]
  rfl

/-- C9 witness: on a state sitting at the last molecule (index 9), advance
keeps the index, shows the completion message, and is idempotent. -/
theorem advance_past_last_idempotent_witness :
    (handleNext lastMoleculeState).currentIndex = lastMoleculeState.currentIndex ∧
    (handleNext lastMoleculeState).feedback = some (Feedback.info completionMessage) ∧
    handleNext (handleNext lastMoleculeState) = handleNext lastMoleculeState :=
  advance_past_last_idempotent lastMoleculeState (by decide)

end VSEPR
